/-
Verification of the resilient sports-data aggregation layer
(`clawd-sports-api`): circuit breaker and retry logic of the ESPN
upstream client, the Redis cache client and its read-through helper,
the games repository sync ordering, and scoreboard normalization.

Shallow embedding conventions:
  * JavaScript timestamps (`Date.now()`) are `Int` milliseconds passed
    explicitly; the network is a list of per-attempt outcomes, each with
    the timestamp at which that attempt resolves.
  * The module-scoped mutable `circuitBreaker` object is threaded as an
    explicit `CircuitBreaker` value.
  * Fallible operations return an explicit result constructor instead of
    throwing.
-/
import Mathlib

set_option maxRecDepth 4000

/-! ## Circuit breaker state (espn-client.js, module-scoped object) -/

/-- Mirror of the module-scoped `circuitBreaker` object: open flag,
consecutive-failure counter, last-failure timestamp (`null` initially,
hence `Option`), failure threshold and reset cooldown in ms. -/
structure CircuitBreaker where
  isOpen : Bool
  failureCount : Nat
  lastFailureTime : Option Int
  threshold : Nat
  resetTimeout : Int
  deriving Repr, DecidableEq

/-- The initialized breaker: closed, zero failures, threshold 5,
reset timeout 30000 ms. -/
def circuitBreakerInit : CircuitBreaker :=
  { isOpen := false, failureCount := 0, lastFailureTime := none,
    threshold := 5, resetTimeout := 30000 }

/-- Error codes distinguished by `_isRetryable`. `otherCode` stands for
any code that is neither `ECONNABORTED` nor `ETIMEDOUT`
(e.g. `ECONNREFUSED`). -/
inductive ErrCode where
  | ECONNABORTED
  | ETIMEDOUT
  | otherCode
  deriving Repr, DecidableEq

/-- An axios error: `response` is the HTTP status when the server
responded with an error status; `request` is true when a request was
made but no response arrived (connection-level failure); `code` is the
node error code when present. -/
structure AxiosError where
  response : Option Nat
  request : Bool
  code : Option ErrCode
  deriving Repr, DecidableEq

/-- `_isCircuitOpen()`: when the breaker is open, compare the elapsed
time since the last failure against the reset timeout; when the cooldown
has elapsed, reset the breaker (closed, counter 0) and report not-open.
JavaScript arithmetic `Date.now() - null` coerces `null` to 0, hence
`getD 0`. Returns the gate decision and the possibly reset state. -/
def isCircuitOpen (cb : CircuitBreaker) (now : Int) : Bool × CircuitBreaker :=
  if cb.isOpen then
    if now - cb.lastFailureTime.getD 0 > cb.resetTimeout then
      (false, { cb with isOpen := false, failureCount := 0 })
    else
      (true, cb)
  else
    (false, cb)

/-- `_handleError(error)`: the axios response interceptor. Only the
`error.response` branch (server responded with an error status) touches
the breaker: it increments the consecutive-failure counter, stamps the
failure time, and opens the breaker once the counter reaches the
threshold. Connection-level failures (`error.request`) and other errors
leave the breaker untouched. -/
def handleError (cb : CircuitBreaker) (e : AxiosError) (now : Int) : CircuitBreaker :=
  match e.response with
  | some _ =>
      let cb1 := { cb with failureCount := cb.failureCount + 1,
                           lastFailureTime := some now }
      if cb1.failureCount ≥ cb1.threshold then { cb1 with isOpen := true }
      else cb1
  | none => cb

/-- `_isRetryable(error)`: timeouts (`ECONNABORTED`, `ETIMEDOUT`) are
retryable, HTTP statuses ≥ 500 are retryable, 429 is retryable, and
nothing else is. -/
def isRetryable (e : AxiosError) : Bool :=
  if e.code = some .ECONNABORTED ∨ e.code = some .ETIMEDOUT then true
  else
    match e.response with
    | some s => decide (s ≥ 500) || decide (s = 429)
    | none => false

/-- What one network attempt does when it is actually issued. -/
inductive Outcome where
  | ok
  | err (e : AxiosError)
  deriving Repr, DecidableEq

/-- Result of `_fetchWithRetry`: successful data, the thrown
`'ESPN API circuit breaker is open'` error, a propagated axios error, or
the (unreachable when the outcome list covers every attempt) case of an
exhausted outcome list. -/
inductive FetchResult where
  | success
  | circuitOpen
  | raised (e : AxiosError)
  | outOfOutcomes
  deriving Repr, DecidableEq

/-- `_fetchWithRetry(config, retries)`. Each list element `(t, o)` is
the timestamp and outcome of the next attempt, the timestamp also being
the moment the breaker gate is consulted. Per the source: check the
gate (which may reset an open breaker whose cooldown elapsed) and throw
without issuing a request when it reports open; otherwise issue the
request; on success zero the failure counter and return; on failure the
response interceptor (`handleError`) runs, then retry when retries
remain and the error is retryable, else rethrow. Returns the final
breaker state, the number of network requests issued, and the result. -/
def fetchWithRetry (cb : CircuitBreaker) (retries : Nat) :
    List (Int × Outcome) → CircuitBreaker × Nat × FetchResult
  | [] => (cb, 0, .outOfOutcomes)
  | (t, o) :: rest =>
    match isCircuitOpen cb t with
    | (true, cb1) => (cb1, 0, .circuitOpen)
    | (false, cb1) =>
      match o with
      | .ok => ({ cb1 with failureCount := 0 }, 1, .success)
      | .err e =>
          let cb2 := handleError cb1 e t
          if retries > 0 ∧ isRetryable e then
            let r := fetchWithRetry cb2 (retries - 1) rest
            (r.1, r.2.1 + 1, r.2.2)
          else
            (cb2, 1, .raised e)

/-! ## healthCheck (espn-client.js) -/

/-- The object `healthCheck()` resolves with: `status`, and the fields
that are present on each path (`latency` and `circuitBreakerOpen` only
on some paths, `message`/`lastFailureTime` on others; `none` models an
absent key). -/
structure HealthReport where
  status : String
  latency : Option Int
  circuitBreakerOpen : Option Bool
  message : Option String
  lastFailureTime : Option (Option Int)
  deriving Repr, DecidableEq

/-- `healthCheck()`: first consults `_isCircuitOpen` (which may itself
reset the breaker); when gated, reports unhealthy with the last failure
time and issues no request. Otherwise performs `_fetchWithRetry` on a
one-game scoreboard request — sharing the breaker with data calls — and
reports healthy with latency, or unhealthy with the breaker flag.
`endTime` models `Date.now()` after the awaited fetch. Returns the
final breaker, the report, and the number of requests issued. -/
def healthCheck (cb : CircuitBreaker) (now endTime : Int) (retries : Nat)
    (net : List (Int × Outcome)) : CircuitBreaker × HealthReport × Nat :=
  match isCircuitOpen cb now with
  | (true, cb1) =>
      (cb1, { status := "unhealthy", latency := none, circuitBreakerOpen := none,
              message := some "Circuit breaker is open",
              lastFailureTime := some cb1.lastFailureTime }, 0)
  | (false, cb1) =>
      let r := fetchWithRetry cb1 retries net
      match r.2.2 with
      | .success =>
          (r.1, { status := "healthy", latency := some (endTime - now),
                  circuitBreakerOpen := some false, message := none,
                  lastFailureTime := none }, r.2.1)
      | _ =>
          (r.1, { status := "unhealthy", latency := none,
                  circuitBreakerOpen := some r.1.isOpen,
                  message := some "error", lastFailureTime := none }, r.2.1)

/-! ## Cache client (config/cache.js) -/

/-- JavaScript values that flow through the cache: `jnull` models both
`null` and a missing value in JS comparisons, the others are the JSON
scalar shapes the client serializes and parses. -/
inductive JVal where
  | jnull
  | jbool (b : Bool)
  | jnum (n : Int)
  | jstr (s : String)
  deriving Repr, DecidableEq

/-- Decimal digit to character, for rendering JSON numbers. -/
def digitChar (d : Nat) : Char :=
  match d with
  | 0 => '0' | 1 => '1' | 2 => '2' | 3 => '3' | 4 => '4'
  | 5 => '5' | 6 => '6' | 7 => '7' | 8 => '8' | _ => '9'

/-- Big-endian decimal rendering of a natural number. -/
def natToDec (n : Nat) : List Char :=
  if n = 0 then ['0'] else ((Nat.digits 10 n).reverse).map digitChar

/-- `JSON.stringify` restricted to the scalar values of `JVal`; string
bodies this model handles are quote-and-escape-free, and
`jsonStringify` is never applied to `jstr` by the cache (strings are
stored raw). -/
def jsonStringify : JVal → String
  | .jnull => "null"
  | .jbool true => "true"
  | .jbool false => "false"
  | .jnum n =>
      if n < 0 then String.mk ('-' :: natToDec n.natAbs)
      else String.mk (natToDec n.toNat)
  | .jstr s => "\"" ++ s ++ "\""

/-- Value of a big-endian digit-character list. -/
def decValue (cs : List Char) : Nat :=
  cs.foldl (fun a c => a * 10 + (c.toNat - 48)) 0

/-- Lenient decimal literal (as `parseInt` reads digit runs): nonempty
and all digits, leading zeros allowed. -/
def parseDec (cs : List Char) : Option Nat :=
  if cs = [] then none
  else if cs.all (·.isDigit) then some (decValue cs) else none

/-- JSON integer literal grammar: `0 | [1-9][0-9]*` — nonempty, all
digits, no leading zero except the literal `0` itself (JSON rejects
`00`, `01`, …). -/
def parseDecJSON (cs : List Char) : Option Nat :=
  match cs with
  | [] => none
  | c :: rest =>
      if c = '0' then (if rest = [] then some 0 else none)
      else parseDec (c :: rest)

/-- `JSON.parse` restricted to the value universe of `JVal`, dispatching
on the first character as JSON grammar does: the `null`/`true`/`false`
keywords, an integer (optionally `-`-signed, JSON's no-leading-zero
grammar), or a quoted string whose body is free of quotes and
backslashes. JSON forms whose parses fall outside `JVal` — fractions,
exponents, arrays, objects, escape sequences — and surrounding
whitespace are outside this model and yield `none`; no theorem below
relies on `parseJSON`'s verdict for such inputs (it is applied only to
`jsonStringify` images and to concrete literals on which it agrees with
`JSON.parse`). -/
def parseJSON (s : String) : Option JVal :=
  match s.data with
  | [] => none
  | c :: cs =>
    if c = 'n' then if s = "null" then some .jnull else none
    else if c = 't' then if s = "true" then some (.jbool true) else none
    else if c = 'f' then if s = "false" then some (.jbool false) else none
    else if c = '"' then
      match cs.reverse with
      | [] => none
      | d :: body_rev =>
        if d = '"' ∧ (body_rev.all fun x => x ≠ '"' ∧ x ≠ '\\') then
          some (.jstr (String.mk body_rev.reverse))
        else none
    else if c = '-' then (parseDecJSON cs).map fun m => .jnum (-(m : Int))
    else if c.isDigit then (parseDecJSON (c :: cs)).map fun m => .jnum (m : Int)
    else none

/-- What `set` writes to Redis: a string is stored as-is, anything else
is JSON-stringified (`typeof value === 'string' ? value :
JSON.stringify(value)`). -/
def serializeVal : JVal → String
  | .jstr s => s
  | v => jsonStringify v

/-- State of the `CacheClient` singleton together with its Redis
backend: the connected flag, a flag modelling the backend throwing on
the next operation (the `catch` paths), and the backing store as an
association list from key to (serialized value, TTL seconds —
`none` for a plain `SET` with no expiry). -/
structure CacheState where
  isConnected : Bool
  backendFails : Bool
  store : List (String × String × Option Nat)
  deriving Repr, DecidableEq

/-- Association-list lookup (newest binding first, as `storeInsert`
prepends). -/
def storeLookup (st : List (String × String × Option Nat)) (key : String) :
    Option (String × Option Nat) :=
  match st with
  | [] => none
  | (k, v) :: rest => if k = key then some v else storeLookup rest key

def storeInsert (st : List (String × String × Option Nat))
    (key : String) (v : String × Option Nat) :
    List (String × String × Option Nat) :=
  (key, v) :: st

def storeRemove (st : List (String × String × Option Nat)) (key : String) :
    List (String × String × Option Nat) :=
  st.filter fun kv => kv.1 ≠ key

/-- `CacheClient.get(key)`: `null` when not connected; on a backend
error, log and return `null`; a missing key or a falsy raw string (only
`""`) yields `null`; otherwise `JSON.parse` the raw string, and when
that throws return the raw string itself. -/
def cacheGet (st : CacheState) (key : String) : JVal :=
  if !st.isConnected then .jnull
  else if st.backendFails then .jnull
  else
    match storeLookup st.store key with
    | none => .jnull
    | some (raw, _) =>
      if raw = "" then .jnull
      else
        match parseJSON raw with
        | some v => v
        | none => .jstr raw

/-- `CacheClient.set(key, value, ttl)`: `false` when not connected or on
a backend error (state unwritten); otherwise serialize and store —
`SETEX` with the TTL when `ttl` is truthy, plain `SET` otherwise — and
return `true`. JS truthiness of the `ttl` number: `0` and `null` are
falsy. -/
def cacheSet (st : CacheState) (key : String) (v : JVal) (ttl : Option Nat) :
    CacheState × Bool :=
  if !st.isConnected then (st, false)
  else if st.backendFails then (st, false)
  else
    let stored : Option Nat := match ttl with
      | some t => if t = 0 then none else some t
      | none => none
    ({ st with store := storeInsert st.store key (serializeVal v, stored) }, true)

/-- `CacheClient.del(key)`: `false` when not connected or on a backend
error, otherwise delete and return `true`. -/
def cacheDel (st : CacheState) (key : String) : CacheState × Bool :=
  if !st.isConnected then (st, false)
  else if st.backendFails then (st, false)
  else ({ st with store := storeRemove st.store key }, true)

/-- Redis glob match restricted to the patterns this codebase uses:
a trailing `*` matches any suffix, otherwise the match is exact. -/
def globMatch (pat key : String) : Bool :=
  if pat.endsWith "*" then (pat.dropRight 1).isPrefixOf key
  else pat = key

/-- `CacheClient.delPattern(pattern)`: `0` when not connected or on a
backend error; otherwise `KEYS pattern`, `0` when nothing matches, else
delete the matches and return how many there were. -/
def cacheDelPattern (st : CacheState) (pat : String) : CacheState × Nat :=
  if !st.isConnected then (st, 0)
  else if st.backendFails then (st, 0)
  else
    let keys := (st.store.map (·.1)).filter (globMatch pat) |>.dedup
    if keys = [] then (st, 0)
    else ({ st with store := st.store.filter fun kv => ¬ globMatch pat kv.1 },
          keys.length)

/-- The `CACHE_TTL` table with its defaults (environment overrides not
modelled): seconds per data category. -/
def CACHE_TTL (dataType : String) : Option Nat :=
  if dataType = "scores" then some 30
  else if dataType = "odds" then some 300
  else if dataType = "standings" then some 21600
  else if dataType = "schedules" then some 86400
  else if dataType = "players" then some 604800
  else if dataType = "news" then some 3600
  else none

/-- Result shape of `CacheHelper.getOrSet`. -/
structure GetOrSetResult where
  data : JVal
  cached : Bool
  deriving Repr, DecidableEq

/-- `CacheHelper.getOrSet(key, fetchFn, dataType)`: read the cache; a
non-`null` read is returned tagged `cached: true` without invoking the
fetch function; on `null`, invoke the fetch function (whose result is
`fetchVal`), store it at `CACHE_TTL[dataType] || 300`, and return it
tagged `cached: false`. The final `Nat` counts fetch-function
invocations. -/
def getOrSet (st : CacheState) (key : String) (fetchVal : JVal)
    (dataType : String) : CacheState × GetOrSetResult × Nat :=
  let cached := cacheGet st key
  if cached ≠ .jnull then
    (st, { data := cached, cached := true }, 0)
  else
    let ttl := (CACHE_TTL dataType).getD 300
    let r := cacheSet st key fetchVal (some ttl)
    (r.1, { data := fetchVal, cached := false }, 1)

/-! ## Scoreboard normalization (espn-client.js `_normalizeGameData`) -/

/-- `parseInt` on a possibly-missing string: `undefined` gives `NaN`
(`none`); otherwise an optional sign followed by at least one leading
digit parses (ignoring any trailing junk, as `parseInt` does), and
anything else is `NaN`. -/
def jsParseInt (s : Option String) : Option Int :=
  match s with
  | none => none
  | some str =>
    match str.data with
    | '-' :: rest =>
        match parseDec (rest.takeWhile (·.isDigit)) with
        | some m => some (-(m : Int))
        | none => none
    | cs =>
        match parseDec (cs.takeWhile (·.isDigit)) with
        | some m => some (m : Int)
        | none => none

/-- `parseInt(score) || null`: `NaN` and `0` are both falsy, so both
collapse to `null`; only a nonzero parse survives. -/
def scoreOrNull (s : Option String) : Option Int :=
  match jsParseInt s with
  | some k => if k = 0 then none else some k
  | none => none

/-- A scoreboard competitor: side marker, raw score string when present,
and team display fields. -/
structure Competitor where
  homeAway : String
  score : Option String
  teamId : Option String
  teamName : Option String
  deriving Repr, DecidableEq

/-- A scoreboard event, reduced to the fields `_normalizeGameData`
reads for identities and scores. -/
structure EventData where
  id : String
  competitors : List Competitor
  deriving Repr, DecidableEq

/-- The normalized team side produced by `_normalizeGameData`. -/
structure NormTeam where
  espnId : Option String
  name : Option String
  score : Option Int
  deriving Repr, DecidableEq

/-- The normalized game produced by `_normalizeGameData`, reduced to the
identity and team sides. -/
structure NormGame where
  espnId : String
  homeTeam : NormTeam
  awayTeam : NormTeam
  deriving Repr, DecidableEq

/-- `_normalizeGameData(event)`: pick the `home` and `away` competitors
with `find`, and build each side with `score: parseInt(side?.score) ||
null`. -/
def normalizeGameData (e : EventData) : NormGame :=
  let home := e.competitors.find? (·.homeAway = "home")
  let away := e.competitors.find? (·.homeAway = "away")
  { espnId := e.id,
    homeTeam := { espnId := home.bind (·.teamId), name := home.bind (·.teamName),
                  score := scoreOrNull (home.bind (·.score)) },
    awayTeam := { espnId := away.bind (·.teamId), name := away.bind (·.teamName),
                  score := scoreOrNull (away.bind (·.score)) } }

/-! ## Games repository (`GamesRepository.upsertFromESPN` /
`syncFromScoreboard`) -/

/-- A persisted team row, reduced to the primary key the game write
consumes. -/
structure TeamRow where
  id : Nat
  deriving Repr, DecidableEq

/-- The JavaScript value `teamsRepository.getOrCreate` resolves with:
`null` (falsy), a single row object (the `findByEspnId` hit path,
`teams[0] || null`), or an array of rows (the creation path, since
`BaseRepository.upsert` returns `data || []` — `[row]` on success,
`[]` on a failed write). Arrays are truthy in JS and have no `.id`. -/
inductive TeamResult where
  | jsNull
  | row (r : TeamRow)
  | arr (rs : List TeamRow)
  deriving Repr, DecidableEq

/-- JS truthiness of a `TeamResult`: only `null` is falsy — an array is
truthy even when empty. -/
def jsTruthy : TeamResult → Bool
  | .jsNull => false
  | .row _ => true
  | .arr _ => true

/-- The `.id` property access on a `TeamResult`: defined on a row
object, `undefined` (`none`) on an array. (`null.id` would throw, but
the truthiness guard keeps that case unreachable.) -/
def jsId : TeamResult → Option Nat
  | .row r => some r.id
  | _ => none

/-- `BaseRepository.upsert`'s result shape: `data || []` — the rows the
store returned, or the empty array when the write errored (`data` is
`none`). Never falsy. -/
def baseUpsert (data : Option (List TeamRow)) : List TeamRow :=
  data.getD []

/-- `TeamsRepository.getOrCreate(espnTeamData, league)`: return the
cached value when truthy; otherwise `findByEspnId` (`teams[0] || null`,
here `found`); when that is null, create via `upsertFromESPN`, whose
result is `BaseRepository.upsert`'s `data || []` (here
`baseUpsert createData`) — an array, not a row object. -/
def teamsGetOrCreate (cached : TeamResult) (found : Option TeamRow)
    (createData : Option (List TeamRow)) : TeamResult :=
  if jsTruthy cached then cached
  else
    match found with
    | some r => .row r
    | none => .arr (baseUpsert createData)

/-- The game row assembled by `upsertFromESPN`, reduced to the identity
and the two team foreign keys; `none` models the JS `undefined`
produced by reading `.id` off an array-shaped team result. -/
structure GameRow where
  espn_id : String
  home_team_id : Option Nat
  away_team_id : Option Nat
  deriving Repr, DecidableEq

/-- Events a sync emits against its collaborators, in program order:
a `teamsRepository.getOrCreate` resolution (with its result) and a game
upsert against the store. -/
inductive SyncEvent where
  | resolveTeam (t : NormTeam) (res : TeamResult)
  | writeGame (row : GameRow)
  deriving Repr, DecidableEq

/-- `GamesRepository.upsertFromESPN(espnGameData)`: await
`getOrCreate` for the home team, then for the away team; when either
result is falsy (`if (!homeTeam || !awayTeam)`), warn and return `null`
without touching the games table; otherwise assemble the row from
`homeTeam.id` / `awayTeam.id` — `undefined` when the result is the
creation-path array — and upsert it. The trace records the awaited
resolutions and the write, in order; `resolve` abstracts
`teamsRepository.getOrCreate`. -/
def upsertFromESPN (resolve : NormTeam → TeamResult) (g : NormGame) :
    List SyncEvent × Option GameRow :=
  let homeTeam := resolve g.homeTeam
  let awayTeam := resolve g.awayTeam
  let pre := [SyncEvent.resolveTeam g.homeTeam homeTeam,
              SyncEvent.resolveTeam g.awayTeam awayTeam]
  if jsTruthy homeTeam ∧ jsTruthy awayTeam then
    let row : GameRow := { espn_id := g.espnId,
                           home_team_id := jsId homeTeam,
                           away_team_id := jsId awayTeam }
    (pre ++ [SyncEvent.writeGame row], some row)
  else (pre, none)

/-- Sync totals returned by `syncFromScoreboard`. -/
structure SyncResult where
  successful : Nat
  failed : Nat
  total : Nat
  deriving Repr, DecidableEq

/-- `GamesRepository.syncFromScoreboard(scoreboardData)`: upsert each
game in order, counting successes and failures, and return the totals.
The trace is the concatenation of the per-game traces. -/
def syncFromScoreboard (resolve : NormTeam → TeamResult)
    (games : List NormGame) : List SyncEvent × SyncResult :=
  match games with
  | [] => ([], { successful := 0, failed := 0, total := 0 })
  | g :: rest =>
    let r := upsertFromESPN resolve g
    let tail := syncFromScoreboard resolve rest
    (r.1 ++ tail.1,
     match r.2 with
     | some _ => { tail.2 with successful := tail.2.successful + 1,
                               total := tail.2.total + 1 }
     | none => { tail.2 with failed := tail.2.failed + 1,
                             total := tail.2.total + 1 })

/-! ## Claim theorems: circuit breaker -/

/-- C1: while the breaker is open and the elapsed time since the last
recorded failure has not exceeded the reset cooldown, the call fails
immediately with the circuit-open error, no network request is issued,
and the breaker state is untouched. -/
theorem circuit_open_gates_call (cb : CircuitBreaker) (retries : Nat)
    (now : Int) (o : Outcome) (rest : List (Int × Outcome))
    (hopen : cb.isOpen = true)
    (hcool : now - cb.lastFailureTime.getD 0 ≤ cb.resetTimeout) :
    fetchWithRetry cb retries ((now, o) :: rest) =
      (cb, 0, FetchResult.circuitOpen) := by
  simp [fetchWithRetry, isCircuitOpen, hopen, not_lt.mpr hcool]

/-- Witness for C1 at a concrete open breaker 10 s into a 30 s
cooldown. -/
theorem circuit_open_gates_call_witness :
    fetchWithRetry ⟨true, 5, some 0, 5, 30000⟩ 3 [(10000, Outcome.ok)] =
      (⟨true, 5, some 0, 5, 30000⟩, 0, FetchResult.circuitOpen) :=
  circuit_open_gates_call ⟨true, 5, some 0, 5, 30000⟩ 3 10000 Outcome.ok []
    rfl (by decide)

/-- C2 counterexample: breaker open since t = 0 with a 30000 ms
cooldown and threshold 5; a call at t = 40000 whose single attempt
fails with HTTP 503 leaves the breaker CLOSED with failure count 1 —
it does not re-open as the claim states — and a further call at
t = 41000 is allowed through (issues a request) rather than being
gated. -/
theorem half_open_reopen_refuted :
    ((fetchWithRetry ⟨true, 5, some 0, 5, 30000⟩ 0
        [(40000, Outcome.err ⟨some 503, true, none⟩)]).1.isOpen = false ∧
     (fetchWithRetry ⟨true, 5, some 0, 5, 30000⟩ 0
        [(40000, Outcome.err ⟨some 503, true, none⟩)]).1.failureCount = 1) ∧
    (fetchWithRetry
        (fetchWithRetry ⟨true, 5, some 0, 5, 30000⟩ 0
          [(40000, Outcome.err ⟨some 503, true, none⟩)]).1 0
        [(41000, Outcome.err ⟨some 503, true, none⟩)]).2.1 = 1 := by
  decide

/-- C2 amended: once the cooldown has elapsed, the gate itself fully
closes the breaker and zeroes the counter before the attempt; a
successful call then returns with the breaker closed and counter 0,
while a failed attempt carrying an HTTP response merely sets the
counter to 1 and (threshold ≥ 2) leaves the breaker closed — there is
no single-probe gating and no immediate re-open. -/
theorem cooldown_elapsed_fully_resets (cb : CircuitBreaker) (now : Int)
    (e : AxiosError) (s : Nat)
    (hopen : cb.isOpen = true)
    (hcool : now - cb.lastFailureTime.getD 0 > cb.resetTimeout)
    (hresp : e.response = some s)
    (hthresh : 2 ≤ cb.threshold) :
    isCircuitOpen cb now =
      (false, { cb with isOpen := false, failureCount := 0 }) ∧
    fetchWithRetry cb 0 [(now, Outcome.ok)] =
      ({ cb with isOpen := false, failureCount := 0 }, 1,
        FetchResult.success) ∧
    (fetchWithRetry cb 0 [(now, Outcome.err e)]).1.isOpen = false ∧
    (fetchWithRetry cb 0 [(now, Outcome.err e)]).1.failureCount = 1 := by
  have hgate : isCircuitOpen cb now =
      (false, { cb with isOpen := false, failureCount := 0 }) := by
    simp [isCircuitOpen, hopen, hcool]
  refine ⟨hgate, ?_, ?_, ?_⟩ <;>
    simp [fetchWithRetry, hgate, handleError, hresp, Nat.lt_of_lt_of_le one_lt_two hthresh |>.not_le]

/-- Witness for the amended C2 at a concrete breaker whose cooldown has
elapsed. -/
theorem cooldown_elapsed_fully_resets_witness :
    isCircuitOpen ⟨true, 5, some 0, 5, 30000⟩ 40000 =
      (false, ⟨false, 0, some 0, 5, 30000⟩) ∧
    fetchWithRetry ⟨true, 5, some 0, 5, 30000⟩ 0 [(40000, Outcome.ok)] =
      (⟨false, 0, some 0, 5, 30000⟩, 1, FetchResult.success) ∧
    (fetchWithRetry ⟨true, 5, some 0, 5, 30000⟩ 0
       [(40000, Outcome.err ⟨some 503, true, none⟩)]).1.isOpen = false ∧
    (fetchWithRetry ⟨true, 5, some 0, 5, 30000⟩ 0
       [(40000, Outcome.err ⟨some 503, true, none⟩)]).1.failureCount = 1 :=
  cooldown_elapsed_fully_resets ⟨true, 5, some 0, 5, 30000⟩ 40000
    ⟨some 503, true, none⟩ 503 rfl (by decide) rfl (by decide)

/-- C3 counterexample: one `_fetchWithRetry` call with `retries = 2`
that exhausts its retries on three consecutive HTTP 503 responses ends
with the failure counter at 3, not 1 (the interceptor increments once
per attempt); and one call failing at the connection level
(`ETIMEDOUT`, no HTTP response) ends with the counter still at 0, not
1 — connection failures never increment it. -/
theorem failure_count_per_attempt_refuted :
    (fetchWithRetry circuitBreakerInit 2
       [(0, Outcome.err ⟨some 503, true, none⟩),
        (1000, Outcome.err ⟨some 503, true, none⟩),
        (2000, Outcome.err ⟨some 503, true, none⟩)]).1.failureCount = 3 ∧
    (fetchWithRetry circuitBreakerInit 0
       [(0, Outcome.err ⟨none, true, some ErrCode.ETIMEDOUT⟩)]).1.failureCount
      = 0 := by
  decide

/-- C3 amended: the response interceptor `_handleError` increments the
consecutive-failure counter by exactly one and stamps the failure time
for each individual failed attempt that carries an HTTP response
(opening the breaker once the incremented counter reaches the
threshold), so a call that exhausts its retries increments once per
attempt; failed attempts with no HTTP response (connection-level)
leave the breaker entirely unchanged. -/
theorem handle_error_spec (cb : CircuitBreaker) (e : AxiosError) (now : Int) :
    (∀ s, e.response = some s →
       (handleError cb e now).failureCount = cb.failureCount + 1 ∧
       (handleError cb e now).lastFailureTime = some now ∧
       (handleError cb e now).isOpen =
         (cb.isOpen || decide (cb.failureCount + 1 ≥ cb.threshold))) ∧
    (e.response = none → handleError cb e now = cb) := by
  constructor
  · intro s hs
    refine ⟨?_, ?_, ?_⟩ <;>
      by_cases h : cb.failureCount + 1 ≥ cb.threshold <;>
        simp [handleError, hs, h]
  · intro hs
    simp [handleError, hs]

/-- Witness for the amended C3: a 503 at count 4 increments to 5 and
opens the breaker; a connection timeout changes nothing. -/
theorem handle_error_spec_witness :
    ((handleError ⟨false, 4, some 0, 5, 30000⟩ ⟨some 503, true, none⟩ 7).failureCount
        = (⟨false, 4, some 0, 5, 30000⟩ : CircuitBreaker).failureCount + 1 ∧
     (handleError ⟨false, 4, some 0, 5, 30000⟩ ⟨some 503, true, none⟩ 7).lastFailureTime
        = some 7 ∧
     (handleError ⟨false, 4, some 0, 5, 30000⟩ ⟨some 503, true, none⟩ 7).isOpen
        = ((⟨false, 4, some 0, 5, 30000⟩ : CircuitBreaker).isOpen ||
           decide ((⟨false, 4, some 0, 5, 30000⟩ : CircuitBreaker).failureCount + 1
             ≥ (⟨false, 4, some 0, 5, 30000⟩ : CircuitBreaker).threshold))) ∧
    handleError ⟨false, 4, some 0, 5, 30000⟩ ⟨none, true, some ErrCode.ETIMEDOUT⟩ 7
      = ⟨false, 4, some 0, 5, 30000⟩ :=
  ⟨(handle_error_spec ⟨false, 4, some 0, 5, 30000⟩ ⟨some 503, true, none⟩ 7).1 503 rfl,
   (handle_error_spec ⟨false, 4, some 0, 5, 30000⟩ ⟨none, true, some ErrCode.ETIMEDOUT⟩ 7).2 rfl⟩

/-- Helper: one `_fetchWithRetry` call issues at most `retries + 1`
network requests. -/
theorem fetchWithRetry_requests_le (net : List (Int × Outcome))
    (cb : CircuitBreaker) (retries : Nat) :
    (fetchWithRetry cb retries net).2.1 ≤ retries + 1 := by
  induction net generalizing cb retries with
  | nil => simp [fetchWithRetry]
  | cons hd tl ih =>
    obtain ⟨t, o⟩ := hd
    rcases hgate : isCircuitOpen cb t with ⟨b, cb1⟩
    cases b
    · cases o with
      | ok => simp [fetchWithRetry, hgate]
      | err e =>
        by_cases hr : retries > 0 ∧ isRetryable e = true
        · have h2 := ih (handleError cb1 e t) (retries - 1)
          have h3 := hr.1
          simp only [fetchWithRetry, hgate, if_pos hr]
          omega
        · simp [fetchWithRetry, hgate, hr]
    · simp [fetchWithRetry, hgate]

/-- C4 counterexample: HTTP 408 is classified not retryable by
`_isRetryable` (the claim lists 408 among the retryable statuses), and
so is a connection-refused style failure whose node code is neither
`ECONNABORTED` nor `ETIMEDOUT`. -/
theorem retryable_408_refuted :
    isRetryable ⟨some 408, true, none⟩ = false ∧
    isRetryable ⟨none, true, some ErrCode.otherCode⟩ = false := by
  decide

/-- C4 amended: a failure is retryable exactly when its node code is
`ECONNABORTED` or `ETIMEDOUT`, or its HTTP status is ≥ 500 or equal to
429 (408 and connect failures with other codes are terminal, and every
status ≥ 500 is retryable, not just 500/502/503/504); a terminal
failure on a closed breaker propagates after exactly one request with
no retry, and a call never issues more than `retries + 1` requests. -/
theorem retry_classification_spec :
    (∀ e : AxiosError, isRetryable e = true ↔
       (e.code = some ErrCode.ECONNABORTED ∨ e.code = some ErrCode.ETIMEDOUT ∨
        ∃ s, e.response = some s ∧ (500 ≤ s ∨ s = 429))) ∧
    (∀ (cb : CircuitBreaker) (t : Int) (e : AxiosError)
       (rest : List (Int × Outcome)) (retries : Nat),
       cb.isOpen = false → isRetryable e = false →
       fetchWithRetry cb retries ((t, Outcome.err e) :: rest) =
         (handleError cb e t, 1, FetchResult.raised e)) ∧
    (∀ (cb : CircuitBreaker) (retries : Nat) (net : List (Int × Outcome)),
       (fetchWithRetry cb retries net).2.1 ≤ retries + 1) := by
  refine ⟨?_, ?_, fun cb retries net => fetchWithRetry_requests_le net cb retries⟩
  · intro e
    unfold isRetryable
    rcases e with ⟨resp, req, code⟩
    rcases resp with _ | s <;> rcases code with _ | c <;> simp <;>
      try cases c <;> simp <;> omega
  · intro cb t e rest retries hclosed hterm
    simp [fetchWithRetry, isCircuitOpen, hclosed, hterm]

/-- Witness for the amended C4: 503 is retryable, a 404 on a fresh
breaker propagates after one request, and a fully failing call with
`retries = 3` issues at most 4 requests. -/
theorem retry_classification_spec_witness :
    (isRetryable ⟨some 503, true, none⟩ = true ↔
       ((⟨some 503, true, none⟩ : AxiosError).code = some ErrCode.ECONNABORTED ∨
        (⟨some 503, true, none⟩ : AxiosError).code = some ErrCode.ETIMEDOUT ∨
        ∃ s, (⟨some 503, true, none⟩ : AxiosError).response = some s ∧
          (500 ≤ s ∨ s = 429))) ∧
    fetchWithRetry circuitBreakerInit 3
        [(0, Outcome.err ⟨some 404, true, none⟩)] =
      (handleError circuitBreakerInit ⟨some 404, true, none⟩ 0, 1,
        FetchResult.raised ⟨some 404, true, none⟩) ∧
    (fetchWithRetry circuitBreakerInit 3
        [(0, Outcome.err ⟨some 503, true, none⟩)]).2.1 ≤ 3 + 1 :=
  ⟨retry_classification_spec.1 ⟨some 503, true, none⟩,
   retry_classification_spec.2.1 circuitBreakerInit 0 ⟨some 404, true, none⟩ [] 3
     rfl rfl,
   retry_classification_spec.2.2 circuitBreakerInit 3
     [(0, Outcome.err ⟨some 503, true, none⟩)]⟩

/-! ## Claim theorems: games repository sync ordering -/

/-- A concrete game for the C5 evaluation: both teams new to the store
(the creation path). -/
def gameEx : NormGame :=
  { espnId := "g1",
    homeTeam := { espnId := some "H", name := some "Home", score := none },
    awayTeam := { espnId := some "A", name := some "Away", score := some 3 } }

/-- C5 (code bug): on the team-creation path, `getOrCreate` returns
`BaseRepository.upsert`'s `data || []` — a truthy array with no `.id` —
so the `!homeTeam || !awayTeam` guard does not fire and the game upsert
IS issued with `undefined` team foreign keys, contradicting the claim
(and the code's own `// Ensure teams exist and get their IDs` comment
and guard): here a sync of one fresh game, whose team creations both
succeed and return `[row]`, still emits a `writeGame` with both
foreign keys `undefined`; and `teamsGetOrCreate` never produces a
falsy value except by echoing a cached one (and only truthy values are
ever cached), so the guard is unreachable. -/
theorem game_write_with_unresolved_fk :
    teamsGetOrCreate TeamResult.jsNull none (some [{ id := 1 }]) =
      TeamResult.arr [{ id := 1 }] ∧
    jsTruthy (TeamResult.arr [{ id := 1 }]) = true ∧
    jsId (TeamResult.arr [{ id := 1 }]) = none ∧
    (upsertFromESPN
        (fun _ => teamsGetOrCreate TeamResult.jsNull none (some [{ id := 1 }]))
        gameEx).2 =
      some { espn_id := "g1", home_team_id := none, away_team_id := none } ∧
    SyncEvent.writeGame
        { espn_id := "g1", home_team_id := none, away_team_id := none } ∈
      (syncFromScoreboard
        (fun _ => teamsGetOrCreate TeamResult.jsNull none (some [{ id := 1 }]))
        [gameEx]).1 ∧
    (∀ cached found createData,
       jsTruthy (teamsGetOrCreate cached found createData) = true ∨
         teamsGetOrCreate cached found createData = cached) := by
  refine ⟨rfl, rfl, rfl, rfl, by decide, ?_⟩
  intro cached found createData
  by_cases hc : jsTruthy cached = true
  · right
    simp [teamsGetOrCreate, hc]
  · left
    unfold teamsGetOrCreate
    rw [if_neg hc]
    rcases found with _ | r <;> rfl

/-! ## Claim theorems: cache client -/

/-- C8: with the backing store unreachable or the operation erroring,
`get` returns null, and `set`, `del` and `delPattern` are no-ops
returning `false`, `false` and `0` respectively, with the state
untouched and nothing raised. -/
theorem cache_fails_open (st : CacheState) (key pat : String) (v : JVal)
    (ttl : Option Nat)
    (h : st.isConnected = false ∨ st.backendFails = true) :
    cacheGet st key = JVal.jnull ∧
    cacheSet st key v ttl = (st, false) ∧
    cacheDel st key = (st, false) ∧
    cacheDelPattern st pat = (st, 0) := by
  rcases h with h | h <;>
    exact ⟨by simp [cacheGet, h], by simp [cacheSet, h],
           by simp [cacheDel, h], by simp [cacheDelPattern, h]⟩

/-- Witness for C8 on a disconnected client holding one key. -/
theorem cache_fails_open_witness :
    cacheGet ⟨false, false, [("k", "7", some 30)]⟩ "k" = JVal.jnull ∧
    cacheSet ⟨false, false, [("k", "7", some 30)]⟩ "k" (JVal.jnum 9) (some 30) =
      (⟨false, false, [("k", "7", some 30)]⟩, false) ∧
    cacheDel ⟨false, false, [("k", "7", some 30)]⟩ "k" =
      (⟨false, false, [("k", "7", some 30)]⟩, false) ∧
    cacheDelPattern ⟨false, false, [("k", "7", some 30)]⟩ "k*" =
      (⟨false, false, [("k", "7", some 30)]⟩, 0) :=
  cache_fails_open ⟨false, false, [("k", "7", some 30)]⟩ "k" "k*"
    (JVal.jnum 9) (some 30) (Or.inl rfl)

/-- C6 counterexample: the key `k` is present in a connected cache
(bound to the serialized JSON literal `null`), yet `getOrSet` treats
the read as a miss: it invokes the fetch function once and returns the
fetched value tagged `cached: false`, where the claim requires the
stored value tagged `cached: true` with no fetch invocation. -/
theorem getOrSet_present_key_refuted :
    storeLookup (⟨true, false, [("k", "null", some 30)]⟩ : CacheState).store "k"
      = some ("null", some 30) ∧
    (getOrSet ⟨true, false, [("k", "null", some 30)]⟩ "k" (JVal.jnum 7)
        "scores").2.2 = 1 ∧
    (getOrSet ⟨true, false, [("k", "null", some 30)]⟩ "k" (JVal.jnum 7)
        "scores").2.1.cached = false :=
  ⟨rfl, rfl, rfl⟩

/-- C6 amended: `getOrSet` keys its hit test on the cache read, not on
key presence: when `get` yields a non-null value it returns that value
tagged `cached: true` with zero fetch invocations and the state
untouched; when `get` yields null (key absent, value reading back as
null or empty, or backing store unavailable) it invokes the fetch
function exactly once, stores the result under the key at
`CACHE_TTL[dataType] || 300`, and returns it tagged `cached: false` —
in both cases as the bare data value. -/
theorem getOrSet_spec (st : CacheState) (key : String) (fv : JVal)
    (dt : String) :
    (cacheGet st key ≠ JVal.jnull →
       getOrSet st key fv dt =
         (st, { data := cacheGet st key, cached := true }, 0)) ∧
    (cacheGet st key = JVal.jnull →
       getOrSet st key fv dt =
         ((cacheSet st key fv (some ((CACHE_TTL dt).getD 300))).1,
          { data := fv, cached := false }, 1)) ∧
    (cacheGet st key = JVal.jnull → st.isConnected = true →
      st.backendFails = false →
       storeLookup (getOrSet st key fv dt).1.store key =
         some (serializeVal fv, some ((CACHE_TTL dt).getD 300))) := by
  refine ⟨fun h => by simp [getOrSet, h], fun h => by simp [getOrSet, h], ?_⟩
  intro h hconn hok
  have httl : (CACHE_TTL dt).getD 300 ≠ 0 := by
    unfold CACHE_TTL
    repeat' split
    all_goals simp
  simp [getOrSet, h, cacheSet, hconn, hok, storeInsert, storeLookup, httl]

/-- Witness for the amended C6: a hit on a stored score object, a miss
on an empty cache populating at the scores TTL. -/
theorem getOrSet_spec_witness :
    (getOrSet ⟨true, false, [("k", "42", some 30)]⟩ "k" (JVal.jnum 7) "scores" =
       (⟨true, false, [("k", "42", some 30)]⟩,
        { data := cacheGet ⟨true, false, [("k", "42", some 30)]⟩ "k",
          cached := true }, 0)) ∧
    (getOrSet ⟨true, false, []⟩ "k" (JVal.jnum 7) "scores" =
       ((cacheSet ⟨true, false, []⟩ "k" (JVal.jnum 7)
           (some ((CACHE_TTL "scores").getD 300))).1,
        { data := JVal.jnum 7, cached := false }, 1)) ∧
    storeLookup (getOrSet ⟨true, false, []⟩ "k" (JVal.jnum 7) "scores").1.store
        "k" = some (serializeVal (JVal.jnum 7), some ((CACHE_TTL "scores").getD 300)) :=
  ⟨(getOrSet_spec ⟨true, false, [("k", "42", some 30)]⟩ "k" (JVal.jnum 7)
      "scores").1 (by decide),
   (getOrSet_spec ⟨true, false, []⟩ "k" (JVal.jnum 7) "scores").2.1 rfl,
   (getOrSet_spec ⟨true, false, []⟩ "k" (JVal.jnum 7) "scores").2.2 rfl rfl rfl⟩

/-! ## Decimal round-trip helpers for the JSON model -/

/-- Digits below 10 render to digit characters. -/
theorem digitChar_isDigit (d : Nat) (hd : d < 10) :
    (digitChar d).isDigit = true := by
  interval_cases d <;> decide

/-- Rendering then reading a digit below 10 is the identity. -/
theorem digitChar_toNat (d : Nat) (hd : d < 10) :
    (digitChar d).toNat - 48 = d := by
  interval_cases d <;> decide

/-- Folding the decimal-accumulation step over a rendered little-endian
digit list recovers `Nat.ofDigits`. -/
theorem foldl_digitChar (L : List Nat) (hL : ∀ d ∈ L, d < 10) (a : Nat) :
    List.foldl (fun acc c => acc * 10 + (c.toNat - 48)) a
        ((L.reverse).map digitChar) =
      a * 10 ^ L.length + Nat.ofDigits 10 L := by
  induction L generalizing a with
  | nil => simp [Nat.ofDigits_nil]
  | cons d L' ih =>
    have hd : d < 10 := hL d (List.mem_cons_self d L')
    have hL' : ∀ x ∈ L', x < 10 := fun x hx => hL x (List.mem_cons_of_mem d hx)
    rw [List.reverse_cons, List.map_append, List.foldl_append]
    simp only [List.map_cons, List.map_nil, List.foldl_cons, List.foldl_nil]
    rw [ih hL' a, digitChar_toNat d hd, Nat.ofDigits_cons,
      List.length_cons, pow_succ]
    ring

/-- `natToDec` is never the empty character list. -/
theorem natToDec_ne_nil (n : Nat) : natToDec n ≠ [] := by
  unfold natToDec
  split
  · simp
  · simp [Nat.digits_ne_nil_iff_ne_zero, *]

/-- Every character of `natToDec` is a digit. -/
theorem natToDec_all_digits (n : Nat) :
    ∀ c ∈ natToDec n, c.isDigit = true := by
  intro c hc
  unfold natToDec at hc
  split at hc
  · simp at hc
    simp [hc]
  · simp only [List.mem_map, List.mem_reverse] at hc
    obtain ⟨d, hd, rfl⟩ := hc
    exact digitChar_isDigit d (Nat.digits_lt_base (by norm_num) hd)

/-- Parsing the decimal rendering of `n` recovers `n`. -/
theorem parseDec_natToDec (n : Nat) : parseDec (natToDec n) = some n := by
  by_cases h0 : n = 0
  · subst h0
    decide
  · unfold parseDec
    rw [if_neg (natToDec_ne_nil n)]
    have hall : (natToDec n).all (·.isDigit) = true := by
      rw [List.all_eq_true]
      exact natToDec_all_digits n
    rw [if_pos hall]
    have hlt : ∀ d ∈ Nat.digits 10 n, d < 10 :=
      fun d hd => Nat.digits_lt_base (by norm_num) hd
    unfold decValue natToDec
    rw [if_neg h0, foldl_digitChar (Nat.digits 10 n) hlt 0,
      Nat.ofDigits_digits]
    simp

/-- A nonzero digit below 10 does not render to the character `0`. -/
theorem digitChar_ne_zero_char (d : Nat) (h0 : d ≠ 0) (hd : d < 10) :
    digitChar d ≠ '0' := by
  interval_cases d
  · exact absurd rfl h0
  all_goals decide

/-- The leading character of the decimal rendering of a nonzero number
is not `0` (no leading zeros). -/
theorem natToDec_head_ne_zero (n : Nat) (hn : n ≠ 0) (c : Char)
    (cs : List Char) (h : natToDec n = c :: cs) : c ≠ '0' := by
  have hnil : Nat.digits 10 n ≠ [] := Nat.digits_ne_nil_iff_ne_zero.mpr hn
  have hh : (natToDec n).head? = some c := by rw [h]; rfl
  unfold natToDec at hh
  rw [if_neg hn, List.head?_map, List.head?_reverse,
    List.getLast?_eq_getLast _ hnil] at hh
  have hc : digitChar ((Nat.digits 10 n).getLast hnil) = c := by
    simpa using hh
  have hne : (Nat.digits 10 n).getLast hnil ≠ 0 :=
    Nat.getLast_digit_ne_zero 10 hn
  have hlt : (Nat.digits 10 n).getLast hnil < 10 :=
    Nat.digits_lt_base (by norm_num) (List.getLast_mem hnil)
  intro hc0
  exact digitChar_ne_zero_char _ hne hlt (hc0 ▸ hc)

/-- Parsing the decimal rendering of `n` with JSON's no-leading-zero
number grammar recovers `n`. -/
theorem parseDecJSON_natToDec (n : Nat) :
    parseDecJSON (natToDec n) = some n := by
  by_cases h0 : n = 0
  · subst h0
    decide
  · rcases hcons : natToDec n with _ | ⟨c, cs⟩
    · exact absurd hcons (natToDec_ne_nil n)
    · have hc0 : c ≠ '0' := natToDec_head_ne_zero n h0 c cs hcons
      have heq : parseDecJSON (c :: cs) = parseDec (c :: cs) := by
        simp [parseDecJSON, hc0]
      rw [heq, ← hcons, parseDec_natToDec]

/-- A digit character is none of the `parseJSON` dispatch characters. -/
theorem isDigit_not_special (c : Char) (h : c.isDigit = true) :
    c ≠ 'n' ∧ c ≠ 't' ∧ c ≠ 'f' ∧ c ≠ '"' ∧ c ≠ '-' := by
  refine ⟨?_, ?_, ?_, ?_, ?_⟩ <;> rintro rfl <;> simp at h

/-- Parsing the JSON rendering of any non-string scalar recovers the
value. -/
theorem parseJSON_stringify (v : JVal) (hv : ∀ s, v ≠ JVal.jstr s) :
    parseJSON (jsonStringify v) = some v := by
  cases v with
  | jnull => decide
  | jbool b => cases b <;> decide
  | jstr s => exact absurd rfl (hv s)
  | jnum n =>
    by_cases hneg : n < 0
    · have habs : (-(n.natAbs : Int)) = n := by omega
      simp only [jsonStringify, if_pos hneg]
      show parseJSON (String.mk ('-' :: natToDec n.natAbs)) = some (JVal.jnum n)
      unfold parseJSON
      simp only [parseDecJSON_natToDec, Option.map_some]
      rw [if_neg (by decide : ¬('-' : Char) = 'n'),
        if_neg (by decide : ¬('-' : Char) = 't'),
        if_neg (by decide : ¬('-' : Char) = 'f'),
        if_neg (by decide : ¬('-' : Char) = '\x22')]
      simp [abs_of_neg hneg]
    · have hto : ((n.toNat : Int)) = n := Int.toNat_of_nonneg (by omega)
      simp only [jsonStringify, if_neg hneg]
      obtain ⟨c, cs, hcons⟩ : ∃ c cs, natToDec n.toNat = c :: cs := by
        rcases h : natToDec n.toNat with _ | ⟨c, cs⟩
        · exact absurd h (natToDec_ne_nil _)
        · exact ⟨c, cs, rfl⟩
      have hdig : c.isDigit = true :=
        natToDec_all_digits n.toNat c (hcons ▸ List.mem_cons_self c cs)
      obtain ⟨h1, h2, h3, h4, h5⟩ := isDigit_not_special c hdig
      show parseJSON (String.mk (natToDec n.toNat)) = some (JVal.jnum n)
      unfold parseJSON
      rw [show (String.mk (natToDec n.toNat)).data = c :: cs from
        congrArg String.data (congrArg String.mk hcons)]
      simp only [if_neg h1, if_neg h2, if_neg h3, if_neg h4, if_neg h5,
        if_pos hdig]
      rw [← hcons, parseDecJSON_natToDec]
      simp [hto]

/-- The JSON rendering of a non-string scalar is nonempty. -/
theorem stringify_ne_empty (v : JVal) (hv : ∀ s, v ≠ JVal.jstr s) :
    jsonStringify v ≠ "" := by
  cases v with
  | jnull => decide
  | jbool b => cases b <;> decide
  | jstr s => exact absurd rfl (hv s)
  | jnum n =>
    intro h
    have hdata := congrArg String.data h
    by_cases hneg : n < 0
    · simp only [jsonStringify, if_pos hneg] at hdata
      simp at hdata
    · simp only [jsonStringify, if_neg hneg] at hdata
      exact absurd (by simpa using hdata) (natToDec_ne_nil n.toNat)

/-- C7 counterexample: on a connected cache, `set` of the string value
`"0"` stores it raw; the immediately following `get` JSON-parses the
raw string and returns the number 0, which is not the string that was
set (and a set of the empty string reads back as null). -/
theorem set_then_get_refuted :
    cacheGet (cacheSet ⟨true, false, []⟩ "k" (JVal.jstr "0") (some 30)).1 "k"
      = JVal.jnum 0 ∧
    JVal.jnum 0 ≠ JVal.jstr "0" ∧
    cacheGet (cacheSet ⟨true, false, []⟩ "k" (JVal.jstr "") (some 30)).1 "k"
      = JVal.jnull :=
  ⟨rfl, by decide, rfl⟩

/-- C7 amended: with the backing store reachable, `get` immediately
after `set(key, value, ttl)` returns the value that was set for every
non-string value (null, booleans, numbers); string values are stored
raw and do not round-trip in general: the empty string reads back as
null and a string that is itself valid JSON reads back as its JSON
parse (the string `0` reads back as the number 0), while a string that
is not valid JSON (such as `hello`) reads back unchanged. -/
theorem set_then_get_roundtrip (st : CacheState) (key : String) (v : JVal)
    (ttl : Option Nat) (hconn : st.isConnected = true)
    (hok : st.backendFails = false)
    (hv : ∀ s, v ≠ JVal.jstr s) :
    cacheGet (cacheSet st key v ttl).1 key = v ∧
    cacheGet (cacheSet st key (JVal.jstr "") ttl).1 key = JVal.jnull ∧
    cacheGet (cacheSet st key (JVal.jstr "0") ttl).1 key = JVal.jnum 0 ∧
    cacheGet (cacheSet st key (JVal.jstr "hello") ttl).1 key =
      JVal.jstr "hello" := by
  refine ⟨?_, ?_, ?_, ?_⟩
  · have hraw : serializeVal v = jsonStringify v := by
      cases v with
      | jstr s => exact absurd rfl (hv s)
      | jnull => rfl
      | jbool b => rfl
      | jnum n => rfl
    simp [cacheGet, cacheSet, hconn, hok, storeInsert, storeLookup, hraw,
      stringify_ne_empty v hv, parseJSON_stringify v hv]
  · simp [cacheGet, cacheSet, hconn, hok, storeInsert, storeLookup,
      serializeVal]
  · simp [cacheGet, cacheSet, hconn, hok, storeInsert, storeLookup,
      serializeVal, (by decide : parseJSON "0" = some (JVal.jnum 0))]
  · simp [cacheGet, cacheSet, hconn, hok, storeInsert, storeLookup,
      serializeVal, (by decide : parseJSON "hello" = (none : Option JVal))]

/-- Witness for the amended C7 on a connected empty cache: a negative
number round-trips, and the three concrete string behaviors hold. -/
theorem set_then_get_roundtrip_witness :
    cacheGet (cacheSet ⟨true, false, []⟩ "k" (JVal.jnum (-17)) (some 30)).1 "k"
      = JVal.jnum (-17) ∧
    cacheGet (cacheSet ⟨true, false, []⟩ "k" (JVal.jstr "") (some 30)).1 "k"
      = JVal.jnull ∧
    cacheGet (cacheSet ⟨true, false, []⟩ "k" (JVal.jstr "0") (some 30)).1 "k"
      = JVal.jnum 0 ∧
    cacheGet (cacheSet ⟨true, false, []⟩ "k" (JVal.jstr "hello") (some 30)).1
      "k" = JVal.jstr "hello" :=
  set_then_get_roundtrip ⟨true, false, []⟩ "k" (JVal.jnum (-17)) (some 30)
    rfl rfl (fun s => by simp)

/-! ## Claim theorems: healthCheck and normalization -/

/-- C9 counterexample: a `healthCheck()` on a closed breaker with 4
consecutive failures whose probe fails with HTTP 503 leaves the breaker
different from before — counter bumped to 5 and the breaker OPEN — so
the next data-retrieval call is gated by a state the health check
itself produced. -/
theorem healthCheck_frame_refuted :
    (healthCheck ⟨false, 4, some 0, 5, 30000⟩ 0 50 0
        [(0, Outcome.err ⟨some 503, true, none⟩)]).1 ≠
      ⟨false, 4, some 0, 5, 30000⟩ ∧
    (healthCheck ⟨false, 4, some 0, 5, 30000⟩ 0 50 0
        [(0, Outcome.err ⟨some 503, true, none⟩)]).1.isOpen = true ∧
    (fetchWithRetry
        (healthCheck ⟨false, 4, some 0, 5, 30000⟩ 0 50 0
          [(0, Outcome.err ⟨some 503, true, none⟩)]).1 3
        [(10000, Outcome.ok)]).2.2 = FetchResult.circuitOpen := by
  decide

/-- C9 amended: `healthCheck()` reports status always, but latency only
on the healthy path, and it shares the breaker with data calls rather
than leaving it unchanged: when gated it reports unhealthy with the
last failure time, touches nothing and issues no request; a successful
probe resets the failure counter to 0 and reports healthy with latency
and `circuitBreakerOpen: false`; a failed probe runs the same error
interceptor as a data call (so an HTTP-response failure increments the
counter and can open the breaker). -/
theorem healthCheck_spec (cb : CircuitBreaker) (now endTime t : Int)
    (retries : Nat) (e : AxiosError)
    (net : List (Int × Outcome)) :
    (cb.isOpen = true → now - cb.lastFailureTime.getD 0 ≤ cb.resetTimeout →
       healthCheck cb now endTime retries net =
         (cb, { status := "unhealthy", latency := none,
                circuitBreakerOpen := none,
                message := some "Circuit breaker is open",
                lastFailureTime := some cb.lastFailureTime }, 0)) ∧
    (cb.isOpen = false →
       healthCheck cb now endTime retries [(t, Outcome.ok)] =
         ({ cb with failureCount := 0 },
          { status := "healthy", latency := some (endTime - now),
            circuitBreakerOpen := some false, message := none,
            lastFailureTime := none }, 1)) ∧
    (cb.isOpen = false →
       healthCheck cb now endTime 0 [(t, Outcome.err e)] =
         (handleError cb e t,
          { status := "unhealthy", latency := none,
            circuitBreakerOpen := some (handleError cb e t).isOpen,
            message := some "error", lastFailureTime := none }, 1)) := by
  refine ⟨?_, ?_, ?_⟩
  · intro hopen hcool
    simp [healthCheck, isCircuitOpen, hopen, not_lt.mpr hcool]
  · intro hclosed
    simp [healthCheck, fetchWithRetry, isCircuitOpen, hclosed]
  · intro hclosed
    simp [healthCheck, fetchWithRetry, isCircuitOpen, hclosed]

/-- Witness for the amended C9 at concrete breakers: a gated check, a
healthy probe, and a failing probe that opens the breaker. -/
theorem healthCheck_spec_witness :
    healthCheck ⟨true, 5, some 0, 5, 30000⟩ 10000 10050 3 [(10000, Outcome.ok)]
      = (⟨true, 5, some 0, 5, 30000⟩,
         { status := "unhealthy", latency := none, circuitBreakerOpen := none,
           message := some "Circuit breaker is open",
           lastFailureTime := some (some 0) }, 0) ∧
    healthCheck ⟨false, 3, some 0, 5, 30000⟩ 100 150 3 [(100, Outcome.ok)]
      = (⟨false, 0, some 0, 5, 30000⟩,
         { status := "healthy", latency := some 50,
           circuitBreakerOpen := some false, message := none,
           lastFailureTime := none }, 1) ∧
    healthCheck ⟨false, 4, some 0, 5, 30000⟩ 100 150 0
        [(100, Outcome.err ⟨some 503, true, none⟩)]
      = (handleError ⟨false, 4, some 0, 5, 30000⟩ ⟨some 503, true, none⟩ 100,
         { status := "unhealthy", latency := none,
           circuitBreakerOpen :=
             some (handleError ⟨false, 4, some 0, 5, 30000⟩
               ⟨some 503, true, none⟩ 100).isOpen,
           message := some "error", lastFailureTime := none }, 1) :=
  ⟨(healthCheck_spec ⟨true, 5, some 0, 5, 30000⟩ 10000 10050 10000 3
      ⟨some 503, true, none⟩ [(10000, Outcome.ok)]).1 rfl (by decide),
   by
    have h := (healthCheck_spec ⟨false, 3, some 0, 5, 30000⟩ 100 150 100 3
      ⟨some 503, true, none⟩ []).2.1 rfl
    simpa using h,
   (healthCheck_spec ⟨false, 4, some 0, 5, 30000⟩ 100 150 100 0
      ⟨some 503, true, none⟩ []).2.2 rfl⟩

/-- C10: in scoreboard normalization, a competitor score of `"0"`, a
missing score, and a non-numeric score all normalize to `null` in the
corresponding team's `score` field (for the home and the away side
alike), so the normalized output cannot distinguish a 0-point score
from an absent one. -/
theorem normalize_zero_score_null (e : EventData) :
    (∀ s, ((e.competitors.find? fun c => c.homeAway = "home").bind
        (·.score)) = s →
       (s = some "0" ∨ s = none ∨ jsParseInt s = none) →
       (normalizeGameData e).homeTeam.score = none) ∧
    (∀ s, ((e.competitors.find? fun c => c.homeAway = "away").bind
        (·.score)) = s →
       (s = some "0" ∨ s = none ∨ jsParseInt s = none) →
       (normalizeGameData e).awayTeam.score = none) := by
  constructor <;> intro s hs hz <;>
    simp only [normalizeGameData, hs] <;>
    rcases hz with rfl | rfl | hz
  · rfl
  · rfl
  · simp [scoreOrNull, hz]
  · rfl
  · rfl
  · simp [scoreOrNull, hz]

/-- Witness for C10 on a concrete event: home score `"0"` and missing
away score both normalize to `null`. -/
theorem normalize_zero_score_null_witness :
    (normalizeGameData
       { id := "401", competitors :=
           [{ homeAway := "home", score := some "0", teamId := some "H",
              teamName := some "Home" },
            { homeAway := "away", score := none, teamId := some "A",
              teamName := some "Away" }] }).homeTeam.score = none ∧
    (normalizeGameData
       { id := "401", competitors :=
           [{ homeAway := "home", score := some "0", teamId := some "H",
              teamName := some "Home" },
            { homeAway := "away", score := none, teamId := some "A",
              teamName := some "Away" }] }).awayTeam.score = none :=
  ⟨(normalize_zero_score_null _).1 (some "0") (by decide) (Or.inl rfl),
   (normalize_zero_score_null _).2 none (by decide) (Or.inr (Or.inl rfl))⟩
